import Mathlib

/-!
Shallow embedding of the request-governance layer (rate limiting, timeout
wrapping, and per-call error containment) of the mcp-servers repository.

Times are modelled as natural-number milliseconds (`Date.now()` values).  In
the source every subtraction `now - t` occurs with `t` set at an earlier
`Date.now()` call, so truncated natural subtraction agrees with JavaScript
number subtraction on every branch condition that appears in the code
(a negative difference is neither `> windowMs` nor `≥` any positive bound,
exactly like the truncated value `0`).
-/

namespace McpServers

/-! ## Fixed-window two-granularity limiter (ploomes-crm, brasil-api, slack)

The three adapters share a textually identical `checkRateLimit`, differing
only in the `RATE_LIMIT` constants and in the thrown message. -/

/-- The `RATE_LIMIT` constant object of an adapter: quota per second and per
minute. -/
structure RateLimitConfig where
  perSecond : Nat
  perMinute : Nat
deriving DecidableEq

/-- The mutable `requestCount` object: two counters and the two window start
times. -/
structure RequestCount where
  second : Nat
  minute : Nat
  lastSecondReset : Nat
  lastMinuteReset : Nat
deriving DecidableEq

/-- The `requestCount` initialiser: both counters zero, both window starts at
the module-load time `t0` (`Date.now()`). -/
def initRequestCount (t0 : Nat) : RequestCount :=
  { second := 0, minute := 0, lastSecondReset := t0, lastMinuteReset := t0 }

/-- Steps 1–2 of `checkRateLimit`: reset the per-second window when more than
1000 ms have elapsed since `lastSecondReset`, and the per-minute window when
more than 60000 ms have elapsed since `lastMinuteReset`. -/
def resetWindows (now : Nat) (rc : RequestCount) : RequestCount :=
  let rc1 :=
    if 1000 < now - rc.lastSecondReset then
      { rc with second := 0, lastSecondReset := now }
    else rc
  if 60000 < now - rc1.lastMinuteReset then
    { rc1 with minute := 0, lastMinuteReset := now }
  else rc1

/-- `checkRateLimit` of ploomes-crm / brasil-api / slack: reset elapsed
windows, then throw (modelled as `false`) when either counter has reached its
quota, otherwise increment both counters and admit (`true`). -/
def checkRateLimit (cfg : RateLimitConfig) (now : Nat) (rc : RequestCount) :
    RequestCount × Bool :=
  let rc1 := resetWindows now rc
  if cfg.perSecond ≤ rc1.second ∨ cfg.perMinute ≤ rc1.minute then
    (rc1, false)
  else
    ({ rc1 with second := rc1.second + 1, minute := rc1.minute + 1 }, true)

/-- Message thrown by the ploomes-crm and brasil-api limiters. -/
def rateLimitMessagePt : String :=
  "Taxa limite de requisições excedida. Tente novamente em alguns instantes."

/-- ploomes-crm: 5 requests per second, 300 per minute. -/
def ploomesRateLimit : RateLimitConfig := { perSecond := 5, perMinute := 300 }

/-- brasil-api: 2 requests per second, 60 per minute. -/
def brasilApiRateLimit : RateLimitConfig := { perSecond := 2, perMinute := 60 }

/-- slack: 5 requests per second, 80 per minute. -/
def slackRateLimit : RateLimitConfig := { perSecond := 5, perMinute := 80 }

/-- Run a sequence of `checkRateLimit` calls at the given timestamps,
threading the shared counter state; returns the final state and the per-call
admission decisions. -/
def runChecks (cfg : RateLimitConfig) : List Nat → RequestCount →
    RequestCount × List Bool
  | [], rc => (rc, [])
  | t :: ts, rc =>
    let s := checkRateLimit cfg t rc
    let rest := runChecks cfg ts s.1
    (rest.1, s.2 :: rest.2)

/-- In ploomes-crm, brasil-api and slack every tool handler calls the single
shared `checkRateLimit()`; the tool (operation category) is not passed and
the counter state is global to the process.  The `category` argument is
therefore ignored, exactly as in the source. -/
def sharedToolCheck (cfg : RateLimitConfig) (_category : String) (now : Nat)
    (rc : RequestCount) : RequestCount × Bool :=
  checkRateLimit cfg now rc

/-- Run tool-level calls `(category, timestamp)` against the shared counter. -/
def runSharedToolChecks (cfg : RateLimitConfig) : List (String × Nat) →
    RequestCount → RequestCount × List Bool
  | [], rc => (rc, [])
  | c :: cs, rc =>
    let s := sharedToolCheck cfg c.1 c.2 rc
    let rest := runSharedToolChecks cfg cs s.1
    (rest.1, s.2 :: rest.2)

end McpServers

namespace BraveSearch

/-- The brave-search `requestCount` object: a per-second counter, a per-month
counter, and a single `lastReset` timestamp. -/
structure RequestCount where
  second : Nat
  month : Nat
  lastReset : Nat
deriving DecidableEq

/-- brave-search `RATE_LIMIT.perSecond`. -/
def perSecondLimit : Nat := 1

/-- brave-search `RATE_LIMIT.perMonth`. -/
def perMonthLimit : Nat := 15000

/-- The initial brave-search counter state at module-load time `t0`. -/
def initRequestCount (t0 : Nat) : RequestCount :=
  { second := 0, month := 0, lastReset := t0 }

/-- Step 1 of brave-search `checkRateLimit`: reset the per-second counter
(and only it) when more than 1000 ms have elapsed since `lastReset`.  The
`month` counter has no reset clause anywhere in the source. -/
def resetSecondWindow (now : Nat) (rc : RequestCount) : RequestCount :=
  if 1000 < now - rc.lastReset then
    { rc with second := 0, lastReset := now }
  else rc

/-- brave-search `checkRateLimit`: reset the per-second window if elapsed,
throw `Rate limit exceeded` when either counter has reached its quota,
otherwise increment both counters. -/
def checkRateLimit (now : Nat) (rc : RequestCount) :
    RequestCount × Except String Unit :=
  let rc1 := resetSecondWindow now rc
  if perSecondLimit ≤ rc1.second ∨ perMonthLimit ≤ rc1.month then
    (rc1, Except.error "Rate limit exceeded")
  else
    ({ rc1 with second := rc1.second + 1, month := rc1.month + 1 },
     Except.ok ())

/-- Run a sequence of brave-search `checkRateLimit` calls. -/
def runChecks : List Nat → RequestCount → RequestCount × List Bool
  | [], rc => (rc, [])
  | t :: ts, rc =>
    let s := checkRateLimit t rc
    let rest := runChecks ts s.1
    (rest.1, (s.2 matches Except.ok _) :: rest.2)

end BraveSearch

namespace GoogleCalendar

/-- `windowMs` inside google-calendar `checkRateLimit`. -/
def windowMs : Nat := 100 * 1000

/-- `maxRequestsPerWindow` inside google-calendar `checkRateLimit`. -/
def maxRequestsPerWindow : Nat := 500

/-- The `requestTimestamps` map: per operation-type list of request
timestamps.  A key that was never touched holds `[]`, matching the lazy
initialisation in the source. -/
abbrev TimestampMap : Type := String → List Nat

/-- The state at process start: no timestamps recorded for any operation. -/
def initTimestamps : TimestampMap := fun _ => []

/-- google-calendar `checkRateLimit`: filter the operation's timestamp list
down to entries younger than `windowMs`, reject when 500 or more survive,
otherwise append `now` and admit.  This is a sliding log of individual
request timestamps, not a counter with a window start time. -/
def checkRateLimit (operationType : String) (now : Nat) (st : TimestampMap) :
    TimestampMap × Bool :=
  let filtered := (st operationType).filter (fun t => now - t < windowMs)
  if maxRequestsPerWindow ≤ filtered.length then
    (Function.update st operationType filtered, false)
  else
    (Function.update st operationType (filtered ++ [now]), true)

/-- The state-mutation that google-calendar `checkRateLimit` performs before
its admission test: pruning the operation's expired timestamps. -/
def pruneWindow (operationType : String) (now : Nat) (st : TimestampMap) :
    TimestampMap :=
  Function.update st operationType
    ((st operationType).filter (fun t => now - t < windowMs))

/-- Run a sequence of google-calendar `checkRateLimit` calls, each given as
`(operationType, timestamp)`. -/
def runChecks : List (String × Nat) → TimestampMap → TimestampMap × List Bool
  | [], st => (st, [])
  | c :: cs, st =>
    let s := checkRateLimit c.1 c.2 st
    let rest := runChecks cs s.1
    (rest.1, s.2 :: rest.2)

end GoogleCalendar

namespace SpecModel

/-- Modelled from the spec (for comparison with the code): the §4.1
fixed-window counter the specification describes — per category and
granularity a `count` and a `windowStartTime`; when
`elapsed > windowLengthMs` the window is fully reset (count 0, start `now`);
a call is rejected when `count` has reached the maximum and otherwise
increments `count`. -/
structure Window where
  count : Nat
  windowStartTime : Nat
deriving DecidableEq

/-- Modelled from the spec: one `checkLimit` step of the spec's fixed-window
algorithm for a single granularity. -/
def checkLimit (windowLengthMs maxCount : Nat) (now : Nat) (w : Window) :
    Window × Bool :=
  let w1 :=
    if windowLengthMs < now - w.windowStartTime then
      { count := 0, windowStartTime := now }
    else w
  if maxCount ≤ w1.count then (w1, false)
  else ({ w1 with count := w1.count + 1 }, true)

/-- Run a sequence of spec-model `checkLimit` calls for one granularity. -/
def runChecks (windowLengthMs maxCount : Nat) : List Nat → Window →
    Window × List Bool
  | [], w => (w, [])
  | t :: ts, w =>
    let s := checkLimit windowLengthMs maxCount t w
    let rest := runChecks windowLengthMs maxCount ts s.1
    (rest.1, s.2 :: rest.2)

end SpecModel

/-! ## Helper lemmas: fixed-window family -/

namespace McpServers

theorem resetWindows_second_le (now : Nat) (rc : RequestCount) :
    (resetWindows now rc).second ≤ rc.second := by
  unfold resetWindows
  dsimp only
  split <;> split <;> simp

theorem resetWindows_minute_le (now : Nat) (rc : RequestCount) :
    (resetWindows now rc).minute ≤ rc.minute := by
  unfold resetWindows
  dsimp only
  split <;> split <;> simp

theorem checkRateLimit_counters_le_fixed (cfg : RateLimitConfig) (now : Nat)
    (rc : RequestCount) (h1 : rc.second ≤ cfg.perSecond)
    (h2 : rc.minute ≤ cfg.perMinute) :
    (checkRateLimit cfg now rc).1.second ≤ cfg.perSecond ∧
    (checkRateLimit cfg now rc).1.minute ≤ cfg.perMinute := by
  unfold checkRateLimit
  dsimp only
  split
  · exact ⟨le_trans (resetWindows_second_le now rc) h1,
      le_trans (resetWindows_minute_le now rc) h2⟩
  · rename_i hguard
    push_neg at hguard
    exact ⟨hguard.1, hguard.2⟩

theorem runChecks_counters_le_fixed (cfg : RateLimitConfig) (ts : List Nat) :
    ∀ rc : RequestCount, rc.second ≤ cfg.perSecond →
      rc.minute ≤ cfg.perMinute →
      (runChecks cfg ts rc).1.second ≤ cfg.perSecond ∧
      (runChecks cfg ts rc).1.minute ≤ cfg.perMinute := by
  induction ts with
  | nil => intro rc h1 h2; exact ⟨h1, h2⟩
  | cons t ts ih =>
    intro rc h1 h2
    have hstep := checkRateLimit_counters_le_fixed cfg t rc h1 h2
    exact ih (checkRateLimit cfg t rc).1 hstep.1 hstep.2

end McpServers

/-! ## Helper lemmas: brave-search limiter -/

namespace BraveSearch

theorem resetSecondWindow_second_le (now : Nat) (rc : RequestCount) :
    (resetSecondWindow now rc).second ≤ rc.second := by
  unfold resetSecondWindow
  split <;> simp

theorem resetSecondWindow_month_eq (now : Nat) (rc : RequestCount) :
    (resetSecondWindow now rc).month = rc.month := by
  unfold resetSecondWindow
  split <;> rfl

theorem checkRateLimit_counters_le_brave (now : Nat) (rc : RequestCount)
    (h1 : rc.second ≤ perSecondLimit) (h2 : rc.month ≤ perMonthLimit) :
    (checkRateLimit now rc).1.second ≤ perSecondLimit ∧
    (checkRateLimit now rc).1.month ≤ perMonthLimit := by
  unfold checkRateLimit
  dsimp only
  split
  · exact ⟨le_trans (resetSecondWindow_second_le now rc) h1,
      le_of_eq_of_le (resetSecondWindow_month_eq now rc) h2⟩
  · rename_i hguard
    push_neg at hguard
    exact ⟨hguard.1, hguard.2⟩

theorem runChecks_counters_le_brave (ts : List Nat) :
    ∀ rc : RequestCount, rc.second ≤ perSecondLimit →
      rc.month ≤ perMonthLimit →
      (runChecks ts rc).1.second ≤ perSecondLimit ∧
      (runChecks ts rc).1.month ≤ perMonthLimit := by
  induction ts with
  | nil => intro rc h1 h2; exact ⟨h1, h2⟩
  | cons t ts ih =>
    intro rc h1 h2
    have hstep := checkRateLimit_counters_le_brave t rc h1 h2
    exact ih (checkRateLimit t rc).1 hstep.1 hstep.2

/-- The brave-search per-month counter never decreases: no call resets it. -/
theorem checkRateLimit_month_mono (now : Nat) (rc : RequestCount) :
    rc.month ≤ (checkRateLimit now rc).1.month := by
  unfold checkRateLimit
  dsimp only
  split
  · exact le_of_eq (resetSecondWindow_month_eq now rc).symm
  · simp [resetSecondWindow_month_eq now rc]

end BraveSearch

/-! ## Helper lemmas: google-calendar sliding log -/

namespace GoogleCalendar

theorem checkRateLimit_length_le (op : String) (now : Nat)
    (st : TimestampMap) (h : ∀ o, (st o).length ≤ maxRequestsPerWindow) :
    ∀ o, ((checkRateLimit op now st).1 o).length ≤ maxRequestsPerWindow := by
  intro o
  have hfil : ((st op).filter (fun t => now - t < windowMs)).length ≤
      (st op).length := List.length_filter_le _ _
  unfold checkRateLimit
  dsimp only
  split
  · dsimp only
    rw [Function.update_apply]
    split
    · exact le_trans hfil (h op)
    · exact h o
  · rename_i hc
    dsimp only
    rw [Function.update_apply]
    split
    · rw [List.length_append]
      simp only [List.length_singleton]
      omega
    · exact h o

theorem runChecks_length_le (calls : List (String × Nat)) :
    ∀ st : TimestampMap, (∀ o, (st o).length ≤ maxRequestsPerWindow) →
      ∀ o, ((runChecks calls st).1 o).length ≤ maxRequestsPerWindow := by
  induction calls with
  | nil => intro st h; exact h
  | cons c cs ih =>
    intro st h
    exact ih (checkRateLimit c.1 c.2 st).1
      (checkRateLimit_length_le c.1 c.2 st h)

end GoogleCalendar

namespace McpServers

theorem resetWindows_eq_self (now : Nat) (rc : RequestCount)
    (h1 : now - rc.lastSecondReset ≤ 1000)
    (h2 : now - rc.lastMinuteReset ≤ 60000) :
    resetWindows now rc = rc := by
  have e1 : (if 1000 < now - rc.lastSecondReset then
      { rc with second := 0, lastSecondReset := now } else rc) = rc :=
    if_neg (by omega)
  unfold resetWindows
  dsimp only
  rw [e1]
  exact if_neg (by omega)

/-- When every call of a sequence stays within 1000 ms of the initial window
start, no window reset fires, and the per-second counter counts exactly the
admitted calls. -/
theorem runChecks_within_window (cfg : RateLimitConfig) (t0 : Nat)
    (ts : List Nat) :
    ∀ rc : RequestCount, rc.lastSecondReset = t0 → rc.lastMinuteReset = t0 →
      (∀ t ∈ ts, t ≤ t0 + 1000) →
      (runChecks cfg ts rc).1.lastSecondReset = t0 ∧
      (runChecks cfg ts rc).1.lastMinuteReset = t0 ∧
      (runChecks cfg ts rc).1.second =
        rc.second + (runChecks cfg ts rc).2.count true := by
  induction ts with
  | nil => intro rc hs hm _; exact ⟨hs, hm, by simp [runChecks]⟩
  | cons t ts ih =>
    intro rc hs hm hin
    have ht : t ≤ t0 + 1000 := hin t (List.mem_cons_self t ts)
    have hres : resetWindows t rc = rc :=
      resetWindows_eq_self t rc (by omega) (by omega)
    have hstep : checkRateLimit cfg t rc =
        if cfg.perSecond ≤ rc.second ∨ cfg.perMinute ≤ rc.minute then
          (rc, false)
        else
          ({ rc with second := rc.second + 1, minute := rc.minute + 1 },
           true) := by
      unfold checkRateLimit
      rw [hres]
    by_cases hg : cfg.perSecond ≤ rc.second ∨ cfg.perMinute ≤ rc.minute
    · have hc : checkRateLimit cfg t rc = (rc, false) := by
        rw [hstep, if_pos hg]
      have := ih rc hs hm (fun x hx => hin x (List.mem_cons_of_mem t hx))
      simp only [runChecks, hc]
      refine ⟨this.1, this.2.1, ?_⟩
      rw [this.2.2]
      simp [List.count_cons]
    · have hc : checkRateLimit cfg t rc =
          ({ rc with second := rc.second + 1, minute := rc.minute + 1 },
           true) := by
        rw [hstep, if_neg hg]
      have := ih { rc with second := rc.second + 1, minute := rc.minute + 1 }
        hs hm (fun x hx => hin x (List.mem_cons_of_mem t hx))
      simp only [runChecks, hc]
      refine ⟨this.1, this.2.1, ?_⟩
      rw [this.2.2]
      simp [List.count_cons]
      omega

end McpServers

/-! ## Claim C3 -/

/-- C3: in every adapter's rate limiter, after any sequence of
`checkRateLimit` calls from the initial state, no counter ever exceeds its
configured limit (per-second and per-minute counters of ploomes-crm,
brasil-api and slack; per-second and per-month counters of brave-search;
per-operation timestamp-log length of google-calendar), and for any call
sequence confined to a single per-second window the number of admitted calls
is at most the configured per-second maximum. -/
theorem claim_c3_quota_never_exceeded :
    (∀ (cfg : McpServers.RateLimitConfig) (t0 : Nat) (ts : List Nat),
      (McpServers.runChecks cfg ts (McpServers.initRequestCount t0)).1.second
          ≤ cfg.perSecond ∧
      (McpServers.runChecks cfg ts (McpServers.initRequestCount t0)).1.minute
          ≤ cfg.perMinute) ∧
    (∀ (t0 : Nat) (ts : List Nat),
      (BraveSearch.runChecks ts (BraveSearch.initRequestCount t0)).1.second
          ≤ BraveSearch.perSecondLimit ∧
      (BraveSearch.runChecks ts (BraveSearch.initRequestCount t0)).1.month
          ≤ BraveSearch.perMonthLimit) ∧
    (∀ (calls : List (String × Nat)) (op : String),
      ((GoogleCalendar.runChecks calls GoogleCalendar.initTimestamps).1
          op).length ≤ GoogleCalendar.maxRequestsPerWindow) ∧
    (∀ (cfg : McpServers.RateLimitConfig) (t0 : Nat) (ts : List Nat),
      (∀ t ∈ ts, t ≤ t0 + 1000) →
      (McpServers.runChecks cfg ts (McpServers.initRequestCount t0)).2.count
          true ≤ cfg.perSecond) := by
  refine ⟨?_, ?_, ?_, ?_⟩
  · intro cfg t0 ts
    exact McpServers.runChecks_counters_le_fixed cfg ts _ (Nat.zero_le _)
      (Nat.zero_le _)
  · intro t0 ts
    exact BraveSearch.runChecks_counters_le_brave ts _ (Nat.zero_le _)
      (Nat.zero_le _)
  · intro calls op
    exact GoogleCalendar.runChecks_length_le calls _
      (fun o => by simp [GoogleCalendar.initTimestamps]) op
  · intro cfg t0 ts hin
    have hw := McpServers.runChecks_within_window cfg t0 ts
      (McpServers.initRequestCount t0) rfl rfl hin
    have hs := (McpServers.runChecks_counters_le_fixed cfg ts
      (McpServers.initRequestCount t0) (Nat.zero_le _) (Nat.zero_le _)).1
    have := hw.2.2
    simp [McpServers.initRequestCount] at this
    omega

/-- Witness for C3: six slack-limiter calls inside one second admit at most
five, and the counters stay within quota. -/
theorem claim_c3_quota_never_exceeded_witness :
    (McpServers.runChecks McpServers.slackRateLimit [0, 0, 0, 0, 0, 0]
      (McpServers.initRequestCount 0)).2.count true ≤
        McpServers.slackRateLimit.perSecond ∧
    (McpServers.runChecks McpServers.slackRateLimit [0, 0, 0, 0, 0, 0]
      (McpServers.initRequestCount 0)).1.second ≤
        McpServers.slackRateLimit.perSecond :=
  ⟨claim_c3_quota_never_exceeded.2.2.2 McpServers.slackRateLimit 0
      [0, 0, 0, 0, 0, 0] (by decide),
   (claim_c3_quota_never_exceeded.1 McpServers.slackRateLimit 0
      [0, 0, 0, 0, 0, 0]).1⟩

/-! ## Claim C5 -/

/-- C5: in the two-granularity limiters a call is admitted exactly when both
the per-second and the per-minute counter (after window resets) are below
their quotas, and an admission increments both counters by one; with the
slack quotas (5 per second, 80 per minute), five calls within one second are
admitted and the sixth in the same second is rejected although the
per-minute counter is only 5 < 80. -/
theorem claim_c5_both_granularities_gate :
    (∀ (cfg : McpServers.RateLimitConfig) (now : Nat)
        (rc : McpServers.RequestCount),
      ((McpServers.checkRateLimit cfg now rc).2 = true ↔
        (McpServers.resetWindows now rc).second < cfg.perSecond ∧
        (McpServers.resetWindows now rc).minute < cfg.perMinute) ∧
      (McpServers.checkRateLimit cfg now rc).1.second =
        (if (McpServers.checkRateLimit cfg now rc).2 = true then
          (McpServers.resetWindows now rc).second + 1
        else (McpServers.resetWindows now rc).second) ∧
      (McpServers.checkRateLimit cfg now rc).1.minute =
        (if (McpServers.checkRateLimit cfg now rc).2 = true then
          (McpServers.resetWindows now rc).minute + 1
        else (McpServers.resetWindows now rc).minute)) ∧
    ((McpServers.runChecks McpServers.slackRateLimit [0, 0, 0, 0, 0, 0]
        (McpServers.initRequestCount 0)).2 =
      [true, true, true, true, true, false] ∧
     (McpServers.runChecks McpServers.slackRateLimit [0, 0, 0, 0, 0, 0]
        (McpServers.initRequestCount 0)).1.minute = 5 ∧
     5 < McpServers.slackRateLimit.perMinute) := by
  constructor
  · intro cfg now rc
    unfold McpServers.checkRateLimit
    dsimp only
    by_cases hg : cfg.perSecond ≤ (McpServers.resetWindows now rc).second ∨
        cfg.perMinute ≤ (McpServers.resetWindows now rc).minute
    · rw [if_pos hg]
      refine ⟨⟨fun h => by simp at h, fun h => absurd hg (by omega)⟩,
        by simp, by simp⟩
    · rw [if_neg hg]
      push_neg at hg
      simp [hg.1, hg.2]
  · exact ⟨by decide, by decide, by decide⟩

/-! ## Claim C6 -/

/-- C6: a rejected `checkRateLimit` call mutates nothing beyond the window
reset / timestamp-pruning phase: in ploomes-crm / brasil-api / slack the
post-rejection state is exactly `resetWindows now rc`, in brave-search it is
exactly `resetSecondWindow now rc`, and in google-calendar it is exactly the
pruned timestamp map; in particular no counter is incremented and nothing is
admitted. -/
theorem claim_c6_reject_no_mutation :
    (∀ (cfg : McpServers.RateLimitConfig) (now : Nat)
        (rc : McpServers.RequestCount),
      (McpServers.checkRateLimit cfg now rc).2 = false →
      (McpServers.checkRateLimit cfg now rc).1 =
        McpServers.resetWindows now rc) ∧
    (∀ (now : Nat) (rc : BraveSearch.RequestCount) (msg : String),
      (BraveSearch.checkRateLimit now rc).2 = Except.error msg →
      (BraveSearch.checkRateLimit now rc).1 =
        BraveSearch.resetSecondWindow now rc) ∧
    (∀ (op : String) (now : Nat) (st : GoogleCalendar.TimestampMap),
      (GoogleCalendar.checkRateLimit op now st).2 = false →
      (GoogleCalendar.checkRateLimit op now st).1 =
        GoogleCalendar.pruneWindow op now st) := by
  refine ⟨?_, ?_, ?_⟩
  · intro cfg now rc h
    unfold McpServers.checkRateLimit at h ⊢
    dsimp only at h ⊢
    split at h
    · rename_i hg
      rw [if_pos hg]
    · simp at h
  · intro now rc msg h
    unfold BraveSearch.checkRateLimit at h ⊢
    dsimp only at h ⊢
    split at h
    · rename_i hg
      rw [if_pos hg]
    · simp at h
  · intro op now st h
    unfold GoogleCalendar.checkRateLimit at h ⊢
    dsimp only at h ⊢
    split at h
    · rename_i hg
      rw [if_pos hg]
      rfl
    · simp at h

/-- Witness for C6: a ploomes-crm call with the per-second counter already at
5 and a brave-search call with the per-second counter already at 1 are
rejected without any further state change. -/
theorem claim_c6_reject_no_mutation_witness :
    (McpServers.checkRateLimit McpServers.ploomesRateLimit 0
      ⟨5, 7, 0, 0⟩).1 = McpServers.resetWindows 0 ⟨5, 7, 0, 0⟩ ∧
    (BraveSearch.checkRateLimit 500 ⟨1, 3, 0⟩).1 =
      BraveSearch.resetSecondWindow 500 ⟨1, 3, 0⟩ :=
  ⟨claim_c6_reject_no_mutation.1 McpServers.ploomesRateLimit 0
      ⟨5, 7, 0, 0⟩ (by decide),
   claim_c6_reject_no_mutation.2.1 500 ⟨1, 3, 0⟩ "Rate limit exceeded"
      (by rfl)⟩

/-! ## Claim C2 -/

/-- C2 counterexample: in ploomes-crm all tools share one global counter, so
five admitted `listar_clientes` calls at t=0 exhaust the per-second quota and
a `criar_cliente` call at t=0 — a distinct operation category — is rejected. -/
theorem claim_c2_counterexample :
    (McpServers.runSharedToolChecks McpServers.ploomesRateLimit
      [("listar_clientes", 0), ("listar_clientes", 0), ("listar_clientes", 0),
       ("listar_clientes", 0), ("listar_clientes", 0), ("criar_cliente", 0)]
      (McpServers.initRequestCount 0)).2 =
    [true, true, true, true, true, false] := by
  decide

/-- C2 (amended): only google-calendar keys rate-limit state by operation
category — a `checkRateLimit` call for one category leaves every other
category's timestamp list unchanged and its outcome depends only on its own
category's list — whereas ploomes-crm, brasil-api, slack and brave-search
keep a single process-wide counter that ignores the operation category, so
exhausting the quota through one tool can reject a call of another tool. -/
theorem claim_c2_per_category_isolation :
    (∀ (op opOther : String) (now : Nat)
        (st : GoogleCalendar.TimestampMap), op ≠ opOther →
      (GoogleCalendar.checkRateLimit op now st).1 opOther = st opOther) ∧
    (∀ (op : String) (now : Nat)
        (st st' : GoogleCalendar.TimestampMap), st op = st' op →
      (GoogleCalendar.checkRateLimit op now st).2 =
        (GoogleCalendar.checkRateLimit op now st').2 ∧
      (GoogleCalendar.checkRateLimit op now st).1 op =
        (GoogleCalendar.checkRateLimit op now st').1 op) ∧
    (∀ (cfg : McpServers.RateLimitConfig) (cat catOther : String) (now : Nat)
        (rc : McpServers.RequestCount),
      McpServers.sharedToolCheck cfg cat now rc =
        McpServers.sharedToolCheck cfg catOther now rc) := by
  refine ⟨?_, ?_, ?_⟩
  · intro op opOther now st hne
    unfold GoogleCalendar.checkRateLimit
    dsimp only
    split <;>
      · dsimp only
        rw [Function.update_apply, if_neg (fun h => hne h.symm)]
  · intro op now st st' hst
    unfold GoogleCalendar.checkRateLimit
    rw [hst]
    dsimp only
    split <;> simp
  · intro cfg cat catOther now rc
    rfl

/-- Witness for C2: with only a `list_calendars` timestamp recorded, a
`get_calendar` lookup is untouched by a `list_calendars` check, and the
`list_calendars` decision is the same over any state agreeing on that key. -/
theorem claim_c2_per_category_isolation_witness :
    (GoogleCalendar.checkRateLimit "list_calendars" 5
      (Function.update GoogleCalendar.initTimestamps "get_calendar" [1])).1
      "get_calendar" =
      Function.update GoogleCalendar.initTimestamps "get_calendar" [1]
        "get_calendar" ∧
    (GoogleCalendar.checkRateLimit "list_calendars" 5
        GoogleCalendar.initTimestamps).2 =
      (GoogleCalendar.checkRateLimit "list_calendars" 5
        (Function.update GoogleCalendar.initTimestamps "get_calendar"
          [1])).2 :=
  ⟨claim_c2_per_category_isolation.1 "list_calendars" "get_calendar" 5
      (Function.update GoogleCalendar.initTimestamps "get_calendar" [1])
      (by decide),
   (claim_c2_per_category_isolation.2.1 "list_calendars" 5
      GoogleCalendar.initTimestamps
      (Function.update GoogleCalendar.initTimestamps "get_calendar" [1])
      (by simp [GoogleCalendar.initTimestamps])).1⟩

/-! ## Claim C4 -/

/-- C4 counterexample: the brave-search per-month counter is never reset.
With the month quota exhausted (`month = 15000`) and more than 34 days
(3 000 000 000 ms) elapsed since `lastReset`, the next call is still
rejected and the month counter is not reset — so not every granularity
readmits the full quota after its window elapses. -/
theorem claim_c4_counterexample :
    BraveSearch.checkRateLimit 3000000000 ⟨0, 15000, 0⟩ =
      (⟨0, 15000, 3000000000⟩, Except.error "Rate limit exceeded") ∧
    (BraveSearch.checkRateLimit 6000000000 ⟨0, 15000, 3000000000⟩).2 =
      Except.error "Rate limit exceeded" := by
  constructor <;> rfl

namespace McpServers

theorem resetWindows_full (now : Nat) (rc : RequestCount)
    (h1 : 1000 < now - rc.lastSecondReset)
    (h2 : 60000 < now - rc.lastMinuteReset) :
    resetWindows now rc =
      { second := 0, minute := 0, lastSecondReset := now,
        lastMinuteReset := now } := by
  unfold resetWindows
  dsimp only
  rw [if_pos h1, if_pos (by simpa using h2)]

theorem resetWindows_cases (now : Nat) (rc : RequestCount) :
    resetWindows now rc =
      { second := if 1000 < now - rc.lastSecondReset then 0 else rc.second,
        minute := if 60000 < now - rc.lastMinuteReset then 0 else rc.minute,
        lastSecondReset :=
          if 1000 < now - rc.lastSecondReset then now
          else rc.lastSecondReset,
        lastMinuteReset :=
          if 60000 < now - rc.lastMinuteReset then now
          else rc.lastMinuteReset } := by
  unfold resetWindows
  dsimp only
  by_cases h1 : 1000 < now - rc.lastSecondReset <;>
    by_cases h2 : 60000 < now - rc.lastMinuteReset <;>
      simp [h1, h2]

/-- Running `n` calls all at time `t0` from a state whose window starts are
already `t0` admits all of them and adds `n` to both counters, provided
neither quota is exceeded. -/
theorem runChecks_const_time (cfg : RateLimitConfig) (t0 : Nat) :
    ∀ (n a b : Nat), a + n ≤ cfg.perSecond → b + n ≤ cfg.perMinute →
      runChecks cfg (List.replicate n t0) ⟨a, b, t0, t0⟩ =
        (⟨a + n, b + n, t0, t0⟩, List.replicate n true) := by
  intro n
  induction n with
  | zero => intro a b _ _; simp [runChecks]
  | succ n ih =>
    intro a b ha hb
    have hres : resetWindows t0 (⟨a, b, t0, t0⟩ : RequestCount) =
        ⟨a, b, t0, t0⟩ :=
      resetWindows_eq_self t0 _ (by simp) (by simp)
    have hstep : checkRateLimit cfg t0 ⟨a, b, t0, t0⟩ =
        (⟨a + 1, b + 1, t0, t0⟩, true) := by
      unfold checkRateLimit
      rw [hres]
      rw [if_neg (by dsimp only; omega)]
    rw [List.replicate_succ]
    simp only [runChecks, hstep]
    rw [ih (a + 1) (b + 1) (by omega) (by omega)]
    have e1 : a + 1 + n = a + (n + 1) := by omega
    have e2 : b + 1 + n = b + (n + 1) := by omega
    rw [e1, e2]
    simp [List.replicate_succ]

end McpServers

/-- C4 (amended): in the per-second and per-minute granularities of
ploomes-crm / brasil-api / slack and the per-second granularity of
brave-search, once more than the window length has elapsed since the
window's last reset the next `checkRateLimit` call fully resets that
counter, and the full quota is admitted again even after exhaustion; the
brave-search per-month counter, however, is never reset by any call. -/
theorem claim_c4_window_elapse_readmits :
    (∀ (now : Nat) (rc : McpServers.RequestCount),
      1000 < now - rc.lastSecondReset →
      (McpServers.resetWindows now rc).second = 0 ∧
      (McpServers.resetWindows now rc).lastSecondReset = now) ∧
    (∀ (now : Nat) (rc : McpServers.RequestCount),
      60000 < now - rc.lastMinuteReset →
      (McpServers.resetWindows now rc).minute = 0 ∧
      (McpServers.resetWindows now rc).lastMinuteReset = now) ∧
    (∀ (cfg : McpServers.RateLimitConfig) (t0 : Nat)
        (rc : McpServers.RequestCount) (n : Nat),
      1000 < t0 - rc.lastSecondReset → 60000 < t0 - rc.lastMinuteReset →
      0 < n → n ≤ cfg.perSecond → n ≤ cfg.perMinute →
      (McpServers.runChecks cfg (List.replicate n t0) rc).2 =
        List.replicate n true) ∧
    (∀ (now : Nat) (rc : BraveSearch.RequestCount),
      1000 < now - rc.lastReset →
      (BraveSearch.resetSecondWindow now rc).second = 0 ∧
      (BraveSearch.resetSecondWindow now rc).lastReset = now ∧
      (rc.month < BraveSearch.perMonthLimit →
        (BraveSearch.checkRateLimit now rc).2 = Except.ok ())) ∧
    (∀ (now : Nat) (rc : BraveSearch.RequestCount),
      rc.month ≤ (BraveSearch.checkRateLimit now rc).1.month) := by
  refine ⟨?_, ?_, ?_, ?_, ?_⟩
  · intro now rc h1
    rw [McpServers.resetWindows_cases]
    simp [h1]
  · intro now rc h2
    rw [McpServers.resetWindows_cases]
    simp [h2]
  · intro cfg t0 rc n h1 h2 hn hns hnm
    obtain ⟨m, rfl⟩ : ∃ m, n = m + 1 := ⟨n - 1, by omega⟩
    have hres := McpServers.resetWindows_full t0 rc h1 h2
    have hstep : McpServers.checkRateLimit cfg t0 rc =
        (⟨1, 1, t0, t0⟩, true) := by
      unfold McpServers.checkRateLimit
      rw [hres]
      rw [if_neg (by dsimp only; omega)]
    rw [List.replicate_succ]
    simp only [McpServers.runChecks, hstep]
    rw [McpServers.runChecks_const_time cfg t0 m 1 1 (by omega) (by omega)]
    simp [List.replicate_succ]
  · intro now rc h
    have hres : BraveSearch.resetSecondWindow now rc =
        { rc with second := 0, lastReset := now } := if_pos h
    refine ⟨by rw [hres], by rw [hres], fun hm => ?_⟩
    unfold BraveSearch.checkRateLimit
    rw [hres]
    rw [if_neg (by simp [BraveSearch.perSecondLimit]; omega)]
  · intro now rc
    exact BraveSearch.checkRateLimit_month_mono now rc

/-- Witness for C4: after a 70-second gap both ploomes-crm windows reset and
the full per-second quota of 5 is admitted again from an exhausted state, and
an elapsed brave-search second-window resets and readmits. -/
theorem claim_c4_window_elapse_readmits_witness :
    (McpServers.runChecks McpServers.ploomesRateLimit
      (List.replicate 5 70000) ⟨5, 300, 0, 0⟩).2 = List.replicate 5 true ∧
    (BraveSearch.checkRateLimit 2000 ⟨1, 10, 0⟩).2 = Except.ok () :=
  ⟨claim_c4_window_elapse_readmits.2.2.1 McpServers.ploomesRateLimit 70000
      ⟨5, 300, 0, 0⟩ 5 (by decide) (by decide) (by decide) (by decide)
      (by decide),
   (claim_c4_window_elapse_readmits.2.2.2.1 2000 ⟨1, 10, 0⟩
      (by decide)).2.2 (by decide)⟩

/-! ## Timeout-bounded call wrappers

`fetchWithTimeout` (brave-search, brasil-api, ploomes-crm, and the slack
client's request helper) wires an `AbortController` into `fetch` and calls
`controller.abort()` when the timer fires, so a timeout actually cancels the
transport and `fetch` rejects with the abort error; `clearTimeout` runs in
both the `try` and the `catch` path.  google-calendar's `withTimeout`
instead races the operation against a promise that merely rejects with
`Operation timed out after <ms>ms`; it clears the timer in both paths but
never aborts the underlying operation.  An asynchronous operation is
modelled by its settling time and its own outcome; the wrapper result
records the surfaced outcome, whether the transport was aborted, and whether
the pending timer was cleared. -/

/-- An in-flight asynchronous operation: when it would settle and with what
outcome of its own. -/
structure AsyncOp (ε α : Type) where
  settlesAt : Nat
  outcome : Except ε α

/-- Failures observable through a timeout wrapper: the operation's own
error, an aborted transport (`AbortError`), or the google-calendar timeout
rejection carrying the configured bound. -/
inductive WrapError (ε : Type) where
  | op : ε → WrapError ε
  | aborted : WrapError ε
  | timedOutAfter : Nat → WrapError ε

/-- The message of the google-calendar timeout rejection. -/
def timeoutMessage (timeoutMs : Nat) : String :=
  "Operation timed out after " ++ toString timeoutMs ++ "ms"

/-- What one wrapper call surfaces, plus its cleanup effects. -/
structure WrapperResult (ε α : Type) where
  result : Except (WrapError ε) α
  transportAborted : Bool
  timerCleared : Bool

/-- Inject an operation's own outcome into the wrapper's result type. -/
def liftOutcome : Except ε α → Except (WrapError ε) α
  | Except.ok a => Except.ok a
  | Except.error e => Except.error (WrapError.op e)

/-- `fetchWithTimeout`: if the fetch settles strictly before the timer
fires, the timer is cleared and the fetch's own outcome is propagated;
otherwise the timer's callback calls `controller.abort()`, the transport is
aborted, and the rejected fetch is surfaced (the timer is already spent and
the `catch` path's `clearTimeout` leaves nothing pending). -/
def fetchWithTimeout (op : AsyncOp ε α) (timeout : Nat) : WrapperResult ε α :=
  if op.settlesAt < timeout then
    { result := liftOutcome op.outcome, transportAborted := false,
      timerCleared := true }
  else
    { result := Except.error WrapError.aborted, transportAborted := true,
      timerCleared := true }

/-- Default `timeout` argument of `fetchWithTimeout` in brave-search and
brasil-api. -/
def fetchDefaultTimeout : Nat := 15000

/-- Default `timeout` argument of `fetchWithTimeout` in ploomes-crm. -/
def ploomesDefaultTimeout : Nat := 30000

namespace GoogleCalendar

/-- google-calendar `withTimeout`: race the operation against a rejecting
timer.  If the operation settles first, its own outcome is propagated and
the timer cleared; if the timer fires first, the caller receives the timeout
rejection carrying `timeoutMs` — but the operation itself is never aborted
(there is no AbortController in this wrapper). -/
def withTimeout (op : AsyncOp ε α) (timeoutMs : Nat) : WrapperResult ε α :=
  if op.settlesAt < timeoutMs then
    { result := liftOutcome op.outcome, transportAborted := false,
      timerCleared := true }
  else
    { result := Except.error (WrapError.timedOutAfter timeoutMs),
      transportAborted := false, timerCleared := true }

/-- Default `timeoutMs` argument of google-calendar `withTimeout`. -/
def defaultTimeoutMs : Nat := 15000

end GoogleCalendar

/-! ## Claims C7 and C8 -/

/-- C7 counterexample: google-calendar's `withTimeout` with a 15000 ms bound
against an operation settling at 20000 ms — the timer fires first, the
caller receives the timeout error, but the underlying transport is NOT
aborted, so it is false that every adapter's timeout wrapper aborts the
operation's transport when the timer wins. -/
theorem claim_c7_counterexample :
    GoogleCalendar.withTimeout
        ({ settlesAt := 20000, outcome := Except.ok 0 } : AsyncOp String Nat)
        15000 =
      { result := Except.error (WrapError.timedOutAfter 15000),
        transportAborted := false, timerCleared := true } ∧
    ¬ (GoogleCalendar.withTimeout
        ({ settlesAt := 20000, outcome := Except.ok 0 } : AsyncOp String Nat)
        15000).transportAborted = true :=
  ⟨rfl, by decide⟩

/-- C7 (amended): when the timer fires before the operation settles, the
fetch-based wrappers (brave-search, brasil-api, ploomes-crm, slack) abort
the underlying transport and surface the abort failure, while
google-calendar's `withTimeout` surfaces a timeout error carrying the
elapsed bound but never aborts the underlying operation; in every wrapper
exactly one outcome is surfaced and the timer is cleaned up. -/
theorem claim_c7_timer_first_behavior :
    ∀ (op : AsyncOp String String) (timeout : Nat),
      timeout ≤ op.settlesAt →
      fetchWithTimeout op timeout =
        { result := Except.error WrapError.aborted, transportAborted := true,
          timerCleared := true } ∧
      GoogleCalendar.withTimeout op timeout =
        { result := Except.error (WrapError.timedOutAfter timeout),
          transportAborted := false, timerCleared := true } := by
  intro op timeout h
  unfold fetchWithTimeout GoogleCalendar.withTimeout
  rw [if_neg (by omega), if_neg (by omega)]
  exact ⟨rfl, rfl⟩

/-- Witness for C7 (amended): an operation settling at 20000 ms under a
15000 ms bound is aborted by `fetchWithTimeout` and timed out — without
abort — by `withTimeout`. -/
theorem claim_c7_timer_first_behavior_witness :
    fetchWithTimeout
        ({ settlesAt := 20000, outcome := Except.ok "body" } :
          AsyncOp String String) 15000 =
      { result := Except.error WrapError.aborted, transportAborted := true,
        timerCleared := true } ∧
    GoogleCalendar.withTimeout
        ({ settlesAt := 20000, outcome := Except.ok "body" } :
          AsyncOp String String) 15000 =
      { result := Except.error (WrapError.timedOutAfter 15000),
        transportAborted := false, timerCleared := true } :=
  claim_c7_timer_first_behavior
    { settlesAt := 20000, outcome := Except.ok "body" } 15000 (by decide)

/-- C8: when the operation settles strictly before the timeout, both wrapper
shapes propagate the operation's own outcome (success or failure alike), the
pending timer is cleared in both branches, the transport is not aborted, and
no timeout artifact is observable in the result. -/
theorem claim_c8_settle_first_propagates :
    ∀ (op : AsyncOp String String) (timeout : Nat),
      op.settlesAt < timeout →
      (fetchWithTimeout op timeout).result = liftOutcome op.outcome ∧
      (fetchWithTimeout op timeout).transportAborted = false ∧
      (fetchWithTimeout op timeout).timerCleared = true ∧
      (GoogleCalendar.withTimeout op timeout).result =
        liftOutcome op.outcome ∧
      (GoogleCalendar.withTimeout op timeout).transportAborted = false ∧
      (GoogleCalendar.withTimeout op timeout).timerCleared = true ∧
      (∀ t, (GoogleCalendar.withTimeout op timeout).result ≠
        Except.error (WrapError.timedOutAfter t)) ∧
      (fetchWithTimeout op timeout).result ≠
        Except.error WrapError.aborted := by
  intro op timeout h
  unfold fetchWithTimeout GoogleCalendar.withTimeout
  rw [if_pos h, if_pos h]
  refine ⟨rfl, rfl, rfl, rfl, rfl, rfl, ?_, ?_⟩
  · intro t
    cases hop : op.outcome <;> simp [liftOutcome]
  · cases hop : op.outcome <;> simp [liftOutcome]

/-- Witness for C8: a fetch succeeding at 10 ms and one failing upstream at
10 ms, both under a 15000 ms bound, are propagated unchanged by both
wrappers. -/
theorem claim_c8_settle_first_propagates_witness :
    (fetchWithTimeout
      ({ settlesAt := 10, outcome := Except.ok "body" } :
        AsyncOp String String) 15000).result =
      liftOutcome (Except.ok "body") ∧
    (GoogleCalendar.withTimeout
      ({ settlesAt := 10, outcome := Except.error "API error: 500" } :
        AsyncOp String String) 15000).result =
      liftOutcome (Except.error "API error: 500") ∧
    (fetchWithTimeout
      ({ settlesAt := 10, outcome := Except.error "API error: 500" } :
        AsyncOp String String) 15000).timerCleared = true :=
  ⟨(claim_c8_settle_first_propagates
      { settlesAt := 10, outcome := Except.ok "body" } 15000 (by decide)).1,
   (claim_c8_settle_first_propagates
      { settlesAt := 10, outcome := Except.error "API error: 500" } 15000
      (by decide)).2.2.2.1,
   (claim_c8_settle_first_propagates
      { settlesAt := 10, outcome := Except.error "API error: 500" } 15000
      (by decide)).2.2.1⟩

/-! ## Tool-handler payloads and per-call error containment

Every tool handler wraps its body in `try`/`catch` and converts any thrown
per-call error into a returned payload; no exception escapes a handler.  In
brave-search, google-calendar, ploomes-crm and slack the failure payload is
`{ content: [{ type: "text", text: message }], isError: true }` (success
payloads carry no `isError` member).  The brasil-api CallTool handler
instead returns `{ result }` on success and `{ error: { message } }` on
failure — with no `isError` member anywhere. -/

/-- A JSON-shaped value, enough to express the handlers' response shapes. -/
inductive Json where
  | str : String → Json
  | bool : Bool → Json
  | arr : List Json → Json
  | obj : List (String × Json) → Json

/-- Look a field up in a JSON object (first binding wins, as in a JS object
literal); non-objects have no fields. -/
def lookupField : Json → String → Option Json
  | Json.obj kvs, k => kvs.lookup k
  | _, _ => none

/-- Whether a payload carries an `isError` member set to `true`. -/
def hasIsErrorTrue (j : Json) : Bool :=
  match lookupField j "isError" with
  | some (Json.bool true) => true
  | _ => false

/-- The `{ content: [{ type: "text", text }] }` payload of the McpServer
tool handlers, with `isError: true` appended exactly on the error path. -/
def textContentPayload (msg : String) (isErr : Bool) : Json :=
  Json.obj
    (("content",
      Json.arr [Json.obj [("type", Json.str "text"), ("text", Json.str msg)]])
      :: (if isErr then [("isError", Json.bool true)] else []))

/-- The brasil-api success payload `{ result }`. -/
def brasilSuccessPayload (result : String) : Json :=
  Json.obj [("result", Json.str result)]

/-- The brasil-api failure payload `{ error: { message } }` — note the
absence of any `isError` member. -/
def brasilErrorPayload (msg : String) : Json :=
  Json.obj [("error", Json.obj [("message", Json.str msg)])]

/-- The message carried by a wrapper failure, as the handlers' `catch`
blocks read it from the thrown `Error`. -/
def wrapErrorMessage : WrapError String → String
  | WrapError.op m => m
  | WrapError.aborted => "This operation was aborted"
  | WrapError.timedOutAfter t => timeoutMessage t

namespace BraveSearch

/-- The `brave_web_search` tool handler: `checkRateLimit`, then the upstream
fetch under `fetchWithTimeout`; any thrown error (rate limit, abort/timeout,
upstream non-ok status folded into the operation's own error) is caught and
returned as a `content` + `isError: true` payload. -/
def webSearchToolHandler (rc : RequestCount) (now : Nat)
    (upstream : AsyncOp String String) : RequestCount × Json :=
  let s := checkRateLimit now rc
  match s.2 with
  | Except.error msg => (s.1, textContentPayload msg true)
  | Except.ok () =>
    match (fetchWithTimeout upstream fetchDefaultTimeout).result with
    | Except.ok body => (s.1, textContentPayload body false)
    | Except.error e => (s.1, textContentPayload (wrapErrorMessage e) true)

end BraveSearch

namespace GoogleCalendar

/-- The `google_calendar_list_calendars` tool handler: a failed
`checkRateLimit` throws `Rate limit exceeded for list_calendars`, the client
call runs under `withTimeout`; every thrown error is caught and returned as
a `content` + `isError: true` payload. -/
def listCalendarsToolHandler (st : TimestampMap) (now : Nat)
    (operation : AsyncOp String String) : TimestampMap × Json :=
  let s := checkRateLimit "list_calendars" now st
  if s.2 then
    match (withTimeout operation defaultTimeoutMs).result with
    | Except.ok r => (s.1, textContentPayload r false)
    | Except.error e => (s.1, textContentPayload (wrapErrorMessage e) true)
  else
    (s.1, textContentPayload "Rate limit exceeded for list_calendars" true)

end GoogleCalendar

namespace BrasilApi

/-- The brasil-api CallTool handler on the `brasil_cep` branch: missing
arguments and invalid argument shape throw before any quota use, then
`checkRateLimit` (throwing `rateLimitMessagePt`), then the upstream fetch
under `fetchWithTimeout`; the surrounding `catch` converts every thrown
error into `{ error: { message } }` and success into `{ result }`. -/
def brasilCepToolHandler (rc : McpServers.RequestCount) (now : Nat)
    (hasArgs argsValid : Bool) (upstream : AsyncOp String String) :
    McpServers.RequestCount × Json :=
  if !hasArgs then (rc, brasilErrorPayload "Nenhum argumento fornecido")
  else if !argsValid then
    (rc, brasilErrorPayload "Formato de argumento inválido para brasil_cep")
  else
    let s := McpServers.checkRateLimit McpServers.brasilApiRateLimit now rc
    if s.2 then
      match (fetchWithTimeout upstream fetchDefaultTimeout).result with
      | Except.ok body => (s.1, brasilSuccessPayload body)
      | Except.error e => (s.1, brasilErrorPayload (wrapErrorMessage e))
    else
      (s.1, brasilErrorPayload McpServers.rateLimitMessagePt)

end BrasilApi

/-! ## Claim C9 -/

/-- C9 counterexample: the brasil-api CallTool handler answers a per-call
error (here: missing arguments, and likewise a rate-limited call) with the
`{ error: { message } }` payload, which carries the message but has no
`isError` member at all — so not every adapter returns an `isError: true`
flag on per-call errors. -/
theorem claim_c9_counterexample :
    (BrasilApi.brasilCepToolHandler (McpServers.initRequestCount 0) 0 false
        true { settlesAt := 10, outcome := Except.ok "{}" }).2 =
      brasilErrorPayload "Nenhum argumento fornecido" ∧
    hasIsErrorTrue
      (BrasilApi.brasilCepToolHandler (McpServers.initRequestCount 0) 0 false
        true { settlesAt := 10, outcome := Except.ok "{}" }).2 = false ∧
    hasIsErrorTrue
      (BrasilApi.brasilCepToolHandler ⟨2, 7, 0, 0⟩ 0 true
        true { settlesAt := 10, outcome := Except.ok "{}" }).2 = false :=
  ⟨rfl, rfl, rfl⟩

/-- C9 (amended): every adapter's tool handler catches every per-call error
(validation, rate limit, timeout/abort, upstream failure) and returns a
structured failure payload carrying the error message instead of
propagating.  In brave-search, google-calendar, ploomes-crm and slack that
payload carries `isError: true` (and success payloads carry no `isError`);
in brasil-api the failure payload is `{ error: { message } }`, which carries
the message but no `isError` flag. -/
theorem claim_c9_error_containment :
    (∀ msg body : String,
      hasIsErrorTrue (textContentPayload msg true) = true ∧
      hasIsErrorTrue (textContentPayload body false) = false ∧
      hasIsErrorTrue (brasilErrorPayload msg) = false ∧
      hasIsErrorTrue (brasilSuccessPayload body) = false) ∧
    (∀ (rc : BraveSearch.RequestCount) (now : Nat)
        (upstream : AsyncOp String String) (msg : String),
      (BraveSearch.checkRateLimit now rc).2 = Except.error msg →
      (BraveSearch.webSearchToolHandler rc now upstream).2 =
        textContentPayload msg true) ∧
    (∀ (rc : BraveSearch.RequestCount) (now : Nat)
        (upstream : AsyncOp String String) (e : WrapError String),
      (BraveSearch.checkRateLimit now rc).2 = Except.ok () →
      (fetchWithTimeout upstream fetchDefaultTimeout).result =
        Except.error e →
      (BraveSearch.webSearchToolHandler rc now upstream).2 =
        textContentPayload (wrapErrorMessage e) true) ∧
    (∀ (st : GoogleCalendar.TimestampMap) (now : Nat)
        (operation : AsyncOp String String),
      (GoogleCalendar.checkRateLimit "list_calendars" now st).2 = false →
      (GoogleCalendar.listCalendarsToolHandler st now operation).2 =
        textContentPayload "Rate limit exceeded for list_calendars" true) ∧
    (∀ (st : GoogleCalendar.TimestampMap) (now : Nat)
        (operation : AsyncOp String String) (e : WrapError String),
      (GoogleCalendar.checkRateLimit "list_calendars" now st).2 = true →
      (GoogleCalendar.withTimeout operation
        GoogleCalendar.defaultTimeoutMs).result = Except.error e →
      (GoogleCalendar.listCalendarsToolHandler st now operation).2 =
        textContentPayload (wrapErrorMessage e) true) ∧
    (∀ (rc : McpServers.RequestCount) (now : Nat)
        (upstream : AsyncOp String String),
      (BrasilApi.brasilCepToolHandler rc now false true upstream).2 =
        brasilErrorPayload "Nenhum argumento fornecido" ∧
      (BrasilApi.brasilCepToolHandler rc now true false upstream).2 =
        brasilErrorPayload
          "Formato de argumento inválido para brasil_cep") ∧
    (∀ (rc : McpServers.RequestCount) (now : Nat)
        (upstream : AsyncOp String String),
      (McpServers.checkRateLimit McpServers.brasilApiRateLimit now rc).2 =
        false →
      (BrasilApi.brasilCepToolHandler rc now true true upstream).2 =
        brasilErrorPayload McpServers.rateLimitMessagePt) ∧
    (∀ (rc : McpServers.RequestCount) (now : Nat)
        (upstream : AsyncOp String String) (e : WrapError String),
      (McpServers.checkRateLimit McpServers.brasilApiRateLimit now rc).2 =
        true →
      (fetchWithTimeout upstream fetchDefaultTimeout).result =
        Except.error e →
      (BrasilApi.brasilCepToolHandler rc now true true upstream).2 =
        brasilErrorPayload (wrapErrorMessage e)) := by
  refine ⟨?_, ?_, ?_, ?_, ?_, ?_, ?_, ?_⟩
  · intro msg body
    exact ⟨rfl, rfl, rfl, rfl⟩
  · intro rc now upstream msg h
    unfold BraveSearch.webSearchToolHandler
    dsimp only
    rw [h]
  · intro rc now upstream e h1 h2
    unfold BraveSearch.webSearchToolHandler
    dsimp only
    rw [h1, h2]
  · intro st now operation h
    unfold GoogleCalendar.listCalendarsToolHandler
    dsimp only
    rw [h]
    rfl
  · intro st now operation e h1 h2
    unfold GoogleCalendar.listCalendarsToolHandler
    dsimp only
    rw [h1, h2]
    rfl
  · intro rc now upstream
    exact ⟨rfl, rfl⟩
  · intro rc now upstream h
    unfold BrasilApi.brasilCepToolHandler
    dsimp only
    rw [h]
    rfl
  · intro rc now upstream e h1 h2
    unfold BrasilApi.brasilCepToolHandler
    dsimp only
    rw [h1, h2]
    rfl

/-- Witness for C9 (amended): concrete rate-limited, timed-out and
upstream-failing calls all produce the documented failure payloads. -/
theorem claim_c9_error_containment_witness :
    (BraveSearch.webSearchToolHandler ⟨1, 5, 0⟩ 0
        { settlesAt := 10, outcome := Except.ok "body" }).2 =
      textContentPayload "Rate limit exceeded" true ∧
    (GoogleCalendar.listCalendarsToolHandler GoogleCalendar.initTimestamps 0
        { settlesAt := 20000, outcome := Except.ok "[]" }).2 =
      textContentPayload
        (wrapErrorMessage (WrapError.timedOutAfter 15000)) true ∧
    (BrasilApi.brasilCepToolHandler (McpServers.initRequestCount 0) 0 true
        true { settlesAt := 10, outcome := Except.error "API error: 500" }).2
      = brasilErrorPayload (wrapErrorMessage (WrapError.op "API error: 500"))
    :=
  ⟨claim_c9_error_containment.2.1 ⟨1, 5, 0⟩ 0
      { settlesAt := 10, outcome := Except.ok "body" } "Rate limit exceeded"
      (by rfl),
   claim_c9_error_containment.2.2.2.2.1 GoogleCalendar.initTimestamps 0
      { settlesAt := 20000, outcome := Except.ok "[]" }
      (WrapError.timedOutAfter 15000) (by rfl) (by rfl),
   claim_c9_error_containment.2.2.2.2.2.2.2 (McpServers.initRequestCount 0) 0
      { settlesAt := 10, outcome := Except.error "API error: 500" }
      (WrapError.op "API error: 500") (by rfl) (by rfl)⟩

/-! ## Claim C10 -/

namespace BraveSearch

/-- The sequence of `checkRateLimit` invocations one `brave_local_search`
call performs, with the network fetches abstracted away: one in
`performLocalSearch`; then, when no location ID is found, one more inside
the `performWebSearch` fallback; when at least one ID is found, one in
`getPoisData` and one in `getDescriptionsData` (both started by
`Promise.all`, so both run their synchronous `checkRateLimit` prefix even
when the first of them throws).  A throw of the first check aborts the whole
call before the later ones run. -/
def localSearchChecks (rc : RequestCount) (t1 t2 t3 : Nat) (numIds : Nat) :
    RequestCount × List (Except String Unit) :=
  let s1 := checkRateLimit t1 rc
  if s1.2 matches Except.error _ then (s1.1, [s1.2])
  else if numIds = 0 then
    let s2 := checkRateLimit t2 s1.1
    (s2.1, [s1.2, s2.2])
  else
    let s2 := checkRateLimit t2 s1.1
    let s3 := checkRateLimit t3 s2.1
    (s3.1, [s1.2, s2.2, s3.2])

/-- On an admitted call the state is the reset state with both counters
incremented, and both post-reset counters were strictly below quota. -/
theorem checkRateLimit_ok_state (now : Nat) (rc : RequestCount)
    (h : (checkRateLimit now rc).2 = Except.ok ()) :
    (checkRateLimit now rc).1 =
      { second := (resetSecondWindow now rc).second + 1,
        month := (resetSecondWindow now rc).month + 1,
        lastReset := (resetSecondWindow now rc).lastReset } ∧
    (resetSecondWindow now rc).second < perSecondLimit ∧
    (resetSecondWindow now rc).month < perMonthLimit := by
  unfold checkRateLimit at h ⊢
  dsimp only at h ⊢
  split at h
  · simp at h
  · rename_i hguard
    rw [if_neg hguard]
    push_neg at hguard
    exact ⟨rfl, hguard.1, hguard.2⟩

/-- A call whose post-reset counters meet either quota throws the
`Rate limit exceeded` error. -/
theorem checkRateLimit_error_of (now : Nat) (rc : RequestCount)
    (h : perSecondLimit ≤ (resetSecondWindow now rc).second ∨
      perMonthLimit ≤ (resetSecondWindow now rc).month) :
    (checkRateLimit now rc).2 = Except.error "Rate limit exceeded" := by
  unfold checkRateLimit
  dsimp only
  rw [if_pos h]

end BraveSearch

/-- C10: a `brave_local_search` call that finds at least one location ID
issues exactly three `checkRateLimit` invocations (`performLocalSearch`,
`getPoisData`, `getDescriptionsData`); every admitted invocation consumes
one unit of both the per-second and the per-month quota; and since the
per-second quota is 1, whenever the second invocation falls within the same
1-second window as the admitted first one it throws `Rate limit exceeded`. -/
theorem claim_c10_local_search_triple_check :
    ∀ (rc : BraveSearch.RequestCount) (t1 t2 t3 : Nat) (numIds : Nat),
      1 ≤ numIds →
      (BraveSearch.checkRateLimit t1 rc).2 = Except.ok () →
      (BraveSearch.localSearchChecks rc t1 t2 t3 numIds).2.length = 3 ∧
      (BraveSearch.localSearchChecks rc t1 t2 t3 numIds).2.get? 0 =
        some (Except.ok ()) ∧
      (∀ (now : Nat) (st : BraveSearch.RequestCount),
        (BraveSearch.checkRateLimit now st).2 = Except.ok () →
        (BraveSearch.checkRateLimit now st).1.second =
          (BraveSearch.resetSecondWindow now st).second + 1 ∧
        (BraveSearch.checkRateLimit now st).1.month = st.month + 1) ∧
      (t2 - (BraveSearch.checkRateLimit t1 rc).1.lastReset ≤ 1000 →
        (BraveSearch.localSearchChecks rc t1 t2 t3 numIds).2.get? 1 =
          some (Except.error "Rate limit exceeded")) := by
  intro rc t1 t2 t3 numIds hn h1
  have hnz : ¬ numIds = 0 := by omega
  have hshape : BraveSearch.localSearchChecks rc t1 t2 t3 numIds =
      ((BraveSearch.checkRateLimit t3
          (BraveSearch.checkRateLimit t2
            (BraveSearch.checkRateLimit t1 rc).1).1).1,
        [Except.ok (),
         (BraveSearch.checkRateLimit t2
            (BraveSearch.checkRateLimit t1 rc).1).2,
         (BraveSearch.checkRateLimit t3
            (BraveSearch.checkRateLimit t2
              (BraveSearch.checkRateLimit t1 rc).1).1).2]) := by
    unfold BraveSearch.localSearchChecks
    dsimp only
    rw [h1, if_neg hnz]
    simp
  have hunit : ∀ (now : Nat) (st : BraveSearch.RequestCount),
      (BraveSearch.checkRateLimit now st).2 = Except.ok () →
      (BraveSearch.checkRateLimit now st).1.second =
        (BraveSearch.resetSecondWindow now st).second + 1 ∧
      (BraveSearch.checkRateLimit now st).1.month = st.month + 1 := by
    intro now st hok
    have := (BraveSearch.checkRateLimit_ok_state now st hok).1
    rw [this]
    exact ⟨rfl, by rw [BraveSearch.resetSecondWindow_month_eq]⟩
  refine ⟨by rw [hshape]; rfl, by rw [hshape]; rfl, hunit, ?_⟩
  intro hwin
  rw [hshape]
  have hst1 := (BraveSearch.checkRateLimit_ok_state t1 rc h1).1
  have hsec : (BraveSearch.checkRateLimit t1 rc).1.second =
      (BraveSearch.resetSecondWindow t1 rc).second + 1 := by
    rw [hst1]
  have hnores : BraveSearch.resetSecondWindow t2
      (BraveSearch.checkRateLimit t1 rc).1 =
      (BraveSearch.checkRateLimit t1 rc).1 := by
    unfold BraveSearch.resetSecondWindow
    rw [if_neg (by omega)]
  have hrej : (BraveSearch.checkRateLimit t2
      (BraveSearch.checkRateLimit t1 rc).1).2 =
      Except.error "Rate limit exceeded" :=
    BraveSearch.checkRateLimit_error_of t2 (BraveSearch.checkRateLimit t1 rc).1
      (Or.inl (by rw [hnores, hsec]; exact Nat.le_add_left 1 _))
  rw [hrej]
  rfl

/-- Witness for C10: from a fresh counter at t=0 with one location ID, the
three invocations happen, the first consumes one unit of each quota, and the
second — in the same second window — throws. -/
theorem claim_c10_local_search_triple_check_witness :
    (BraveSearch.localSearchChecks ⟨0, 0, 0⟩ 0 0 0 1).2.length = 3 ∧
    (BraveSearch.localSearchChecks ⟨0, 0, 0⟩ 0 0 0 1).2.get? 1 =
      some (Except.error "Rate limit exceeded") :=
  ⟨(claim_c10_local_search_triple_check ⟨0, 0, 0⟩ 0 0 0 1 (by decide)
      (by rfl)).1,
   (claim_c10_local_search_triple_check ⟨0, 0, 0⟩ 0 0 0 1 (by decide)
      (by rfl)).2.2.2 (by decide)⟩

/-! ## Claim C1 -/

namespace GoogleCalendar

theorem runChecks_cons_gc (c : String × Nat) (cs : List (String × Nat))
    (st : TimestampMap) :
    runChecks (c :: cs) st =
      ((runChecks cs (checkRateLimit c.1 c.2 st).1).1,
        (checkRateLimit c.1 c.2 st).2 ::
          (runChecks cs (checkRateLimit c.1 c.2 st).1).2) := rfl

theorem runChecks_append_gc (l1 l2 : List (String × Nat)) :
    ∀ st : TimestampMap,
      runChecks (l1 ++ l2) st =
        ((runChecks l2 (runChecks l1 st).1).1,
          (runChecks l1 st).2 ++ (runChecks l2 (runChecks l1 st).1).2) := by
  induction l1 with
  | nil => intro st; rfl
  | cons c cs ih =>
    intro st
    rw [List.cons_append, runChecks_cons_gc, runChecks_cons_gc]
    rw [ih (checkRateLimit c.1 c.2 st).1]
    rfl

/-- One admitted google-calendar step at a time when every recorded
timestamp of the operation is still inside the window. -/
theorem checkRateLimit_fresh (op : String) (t : Nat) (st : TimestampMap)
    (hfresh : ∀ x ∈ st op, t - x < windowMs)
    (hlen : (st op).length < maxRequestsPerWindow) :
    checkRateLimit op t st =
      (Function.update st op (st op ++ [t]), true) := by
  have hfil : (st op).filter (fun x => t - x < windowMs) = st op :=
    List.filter_eq_self.mpr (fun a ha => by
      simpa using hfresh a ha)
  unfold checkRateLimit
  dsimp only
  rw [hfil]
  rw [if_neg (by omega)]

/-- Running `n` calls of one operation all at time `t`, starting from a
state whose recorded timestamps all lie inside the window at `t`, admits all
of them and appends `n` copies of `t`. -/
theorem runChecks_same_time_gc (op : String) (t : Nat) :
    ∀ (n : Nat) (st : TimestampMap), (∀ x ∈ st op, t - x < windowMs) →
      (st op).length + n ≤ maxRequestsPerWindow →
      (runChecks (List.replicate n (op, t)) st).1 op =
        st op ++ List.replicate n t ∧
      (runChecks (List.replicate n (op, t)) st).2 =
        List.replicate n true := by
  intro n
  induction n with
  | zero => intro st _ _; simp [runChecks]
  | succ n ih =>
    intro st hfresh hlen
    have hstep := checkRateLimit_fresh op t st hfresh (by omega)
    rw [List.replicate_succ, runChecks_cons_gc]
    dsimp only
    rw [hstep]
    have hupd : Function.update st op (st op ++ [t]) op = st op ++ [t] :=
      Function.update_same op (st op ++ [t]) st
    have hih := ih (Function.update st op (st op ++ [t]))
      (by
        rw [hupd]
        intro x hx
        rcases List.mem_append.mp hx with hx1 | hx2
        · exact hfresh x hx1
        · have : x = t := by simpa using hx2
          subst this
          simp [windowMs])
      (by rw [hupd, List.length_append]; simpa using by omega)
    rw [hupd] at hih
    refine ⟨?_, ?_⟩
    · rw [hih.1, List.append_assoc]
      simp [List.replicate_succ]
    · rw [hih.2]
      rw [List.replicate_succ]

end GoogleCalendar

namespace SpecModel

theorem runChecks_cons_spec (L M : Nat) (t : Nat) (ts : List Nat) (w : Window) :
    runChecks L M (t :: ts) w =
      ((runChecks L M ts (checkLimit L M t w).1).1,
        (checkLimit L M t w).2 ::
          (runChecks L M ts (checkLimit L M t w).1).2) := rfl

theorem runChecks_append_spec (L M : Nat) (l1 l2 : List Nat) :
    ∀ w : Window,
      runChecks L M (l1 ++ l2) w =
        ((runChecks L M l2 (runChecks L M l1 w).1).1,
          (runChecks L M l1 w).2 ++
            (runChecks L M l2 (runChecks L M l1 w).1).2) := by
  induction l1 with
  | nil => intro w; rfl
  | cons t ts ih =>
    intro w
    rw [List.cons_append, runChecks_cons_spec, runChecks_cons_spec]
    rw [ih (checkLimit L M t w).1]
    rfl

/-- Running `n` spec-model calls all at a time that does not yet exceed the
window started at `s` admits all of them while counting them. -/
theorem runChecks_same_time_spec (L M t s : Nat) (hres : ¬ L < t - s) :
    ∀ (n k : Nat), k + n ≤ M →
      runChecks L M (List.replicate n t) ⟨k, s⟩ =
        (⟨k + n, s⟩, List.replicate n true) := by
  intro n
  induction n with
  | zero => intro k _; simp [runChecks]
  | succ n ih =>
    intro k hk
    have hstep : checkLimit L M t ⟨k, s⟩ = (⟨k + 1, s⟩, true) := by
      unfold checkLimit
      dsimp only
      rw [if_neg hres]
      rw [if_neg (by dsimp only; omega)]
    rw [List.replicate_succ, runChecks_cons_spec]
    rw [hstep]
    rw [ih (k + 1) (by omega)]
    have : k + 1 + n = k + (n + 1) := by omega
    rw [this, List.replicate_succ]

end SpecModel

namespace GoogleCalendar

/-- Evaluation of one `checkRateLimit` step once the filtered list is
known. -/
theorem checkRateLimit_of_filter (op : String) (now : Nat)
    (st : TimestampMap) (l : List Nat)
    (hfil : (st op).filter (fun t => now - t < windowMs) = l) :
    checkRateLimit op now st =
      if maxRequestsPerWindow ≤ l.length then
        (Function.update st op l, false)
      else (Function.update st op (l ++ [now]), true) := by
  unfold checkRateLimit
  rw [hfil]

theorem runChecks_single (c : String × Nat) (st : TimestampMap) :
    runChecks [c] st =
      ((checkRateLimit c.1 c.2 st).1, [(checkRateLimit c.1 c.2 st).2]) := rfl

end GoogleCalendar


/-- C1 counterexample: the same 501-call trace (one call at t=0, then 499
calls at t=50000, then calls at t=100001 and t=100002, all for one
operation category) gets different admission decisions from the
google-calendar `checkRateLimit` than from the spec's fixed-window
`checkLimit` with the same window (100 000 ms) and maximum (500): at
t=100002 the code rejects — only the t=0 timestamp decayed out of its
sliding log, 500 remain — while the spec's algorithm, having fully reset
the counter at t=100001 (elapsed 100001 > 100000), admits.  So
google-calendar's `checkRateLimit` is a sliding log, not the fixed-window
counter the claim ascribes to every adapter. -/
theorem claim_c1_counterexample :
    (GoogleCalendar.runChecks
        (List.replicate 1 ("list_calendars", 0) ++
          (List.replicate 499 ("list_calendars", 50000) ++
            ([("list_calendars", 100001)] ++ [("list_calendars", 100002)])))
        GoogleCalendar.initTimestamps).2 =
      List.replicate 1 true ++
        (List.replicate 499 true ++ ([true] ++ [false])) ∧
    (SpecModel.runChecks GoogleCalendar.windowMs
        GoogleCalendar.maxRequestsPerWindow
        (List.replicate 1 0 ++
          (List.replicate 499 50000 ++ ([100001] ++ [100002])))
        { count := 0, windowStartTime := 0 }).2 =
      List.replicate 1 true ++
        (List.replicate 499 true ++ ([true] ++ [true])) ∧
    (GoogleCalendar.runChecks
        (List.replicate 1 ("list_calendars", 0) ++
          (List.replicate 499 ("list_calendars", 50000) ++
            ([("list_calendars", 100001)] ++ [("list_calendars", 100002)])))
        GoogleCalendar.initTimestamps).2 ≠
      (SpecModel.runChecks GoogleCalendar.windowMs
        GoogleCalendar.maxRequestsPerWindow
        (List.replicate 1 0 ++
          (List.replicate 499 50000 ++ ([100001] ++ [100002])))
        { count := 0, windowStartTime := 0 }).2 := by
  have h1 := GoogleCalendar.runChecks_same_time_gc "list_calendars" 0 1
    GoogleCalendar.initTimestamps
    (by simp [GoogleCalendar.initTimestamps])
    (by simp [GoogleCalendar.initTimestamps,
      GoogleCalendar.maxRequestsPerWindow])
  have hst1 : (GoogleCalendar.runChecks
      (List.replicate 1 ("list_calendars", 0))
      GoogleCalendar.initTimestamps).1 "list_calendars" = [0] := by
    rw [h1.1]
    simp [GoogleCalendar.initTimestamps]
  have h2 := GoogleCalendar.runChecks_same_time_gc "list_calendars" 50000 499
    (GoogleCalendar.runChecks (List.replicate 1 ("list_calendars", 0))
      GoogleCalendar.initTimestamps).1
    (by
      rw [hst1]
      intro x hx
      have hx0 : x = 0 := by simpa using hx
      subst hx0
      simp [GoogleCalendar.windowMs])
    (by rw [hst1]; simp [GoogleCalendar.maxRequestsPerWindow])
  have hst2 : (GoogleCalendar.runChecks
      (List.replicate 499 ("list_calendars", 50000))
      (GoogleCalendar.runChecks (List.replicate 1 ("list_calendars", 0))
        GoogleCalendar.initTimestamps).1).1 "list_calendars" =
      [0] ++ List.replicate 499 50000 := by
    rw [h2.1, hst1]
  have hfil3 : ((GoogleCalendar.runChecks
      (List.replicate 499 ("list_calendars", 50000))
      (GoogleCalendar.runChecks (List.replicate 1 ("list_calendars", 0))
        GoogleCalendar.initTimestamps).1).1 "list_calendars").filter
      (fun t => 100001 - t < GoogleCalendar.windowMs) =
      List.replicate 499 50000 := by
    rw [hst2, List.filter_append]
    have e1 : ([0] : List Nat).filter
        (fun t => 100001 - t < GoogleCalendar.windowMs) = [] := by decide
    have e2 : (List.replicate 499 50000).filter
        (fun t => 100001 - t < GoogleCalendar.windowMs) =
        List.replicate 499 50000 :=
      List.filter_eq_self.mpr (fun a ha => by
        have ha5 : a = 50000 := List.eq_of_mem_replicate ha
        subst ha5
        decide)
    rw [e1, e2, List.nil_append]
  have key3 := GoogleCalendar.checkRateLimit_of_filter "list_calendars"
    100001 _ _ hfil3
  rw [if_neg (by rw [List.length_replicate]; decide)] at key3
  have hst3 : Function.update (GoogleCalendar.runChecks
      (List.replicate 499 ("list_calendars", 50000))
      (GoogleCalendar.runChecks (List.replicate 1 ("list_calendars", 0))
        GoogleCalendar.initTimestamps).1).1 "list_calendars"
      (List.replicate 499 50000 ++ [100001]) "list_calendars" =
      List.replicate 499 50000 ++ [100001] :=
    Function.update_same _ _ _
  have hfil4 : (Function.update (GoogleCalendar.runChecks
      (List.replicate 499 ("list_calendars", 50000))
      (GoogleCalendar.runChecks (List.replicate 1 ("list_calendars", 0))
        GoogleCalendar.initTimestamps).1).1 "list_calendars"
      (List.replicate 499 50000 ++ [100001]) "list_calendars").filter
      (fun t => 100002 - t < GoogleCalendar.windowMs) =
      List.replicate 499 50000 ++ [100001] := by
    rw [hst3]
    exact List.filter_eq_self.mpr (fun a ha => by
      rcases List.mem_append.mp ha with ha1 | ha2
      · have ha5 : a = 50000 := List.eq_of_mem_replicate ha1
        subst ha5
        decide
      · have ha6 : a = 100001 := by simpa using ha2
        subst ha6
        decide)
  have key4 := GoogleCalendar.checkRateLimit_of_filter "list_calendars"
    100002 _ _ hfil4
  rw [if_pos (by rw [List.length_append, List.length_replicate]; decide)]
    at key4
  have hgc : (GoogleCalendar.runChecks
      (List.replicate 1 ("list_calendars", 0) ++
        (List.replicate 499 ("list_calendars", 50000) ++
          ([("list_calendars", 100001)] ++ [("list_calendars", 100002)])))
      GoogleCalendar.initTimestamps).2 =
      List.replicate 1 true ++
        (List.replicate 499 true ++ ([true] ++ [false])) := by
    rw [GoogleCalendar.runChecks_append_gc, GoogleCalendar.runChecks_append_gc,
      GoogleCalendar.runChecks_append_gc]
    rw [h1.2, h2.2]
    rw [GoogleCalendar.runChecks_single ("list_calendars", 100001)]
    dsimp only
    rw [key3]
    dsimp only
    rw [GoogleCalendar.runChecks_single ("list_calendars", 100002)]
    dsimp only
    rw [key4]
  have hspec : (SpecModel.runChecks GoogleCalendar.windowMs
      GoogleCalendar.maxRequestsPerWindow
      (List.replicate 1 0 ++
        (List.replicate 499 50000 ++ ([100001] ++ [100002])))
      { count := 0, windowStartTime := 0 }).2 =
      List.replicate 1 true ++
        (List.replicate 499 true ++ ([true] ++ [true])) := by
    rw [SpecModel.runChecks_append_spec, SpecModel.runChecks_append_spec]
    have s1 := SpecModel.runChecks_same_time_spec GoogleCalendar.windowMs
      GoogleCalendar.maxRequestsPerWindow 0 0 (by decide) 1 0 (by decide)
    rw [s1]
    dsimp only
    have s2 := SpecModel.runChecks_same_time_spec GoogleCalendar.windowMs
      GoogleCalendar.maxRequestsPerWindow 50000 0 (by decide) 499 (0 + 1)
      (by decide)
    rw [s2]
    dsimp only
    have s3 : SpecModel.runChecks GoogleCalendar.windowMs
        GoogleCalendar.maxRequestsPerWindow ([100001] ++ [100002])
        { count := 0 + 1 + 499, windowStartTime := 0 } =
        ({ count := 2, windowStartTime := 100001 }, [true] ++ [true]) := by
      decide
    rw [s3]
  refine ⟨hgc, hspec, ?_⟩
  rw [hgc, hspec]
  intro hcontra
  have hc1 := List.append_cancel_left hcontra
  have hc2 := List.append_cancel_left hc1
  have hc3 := List.append_cancel_left hc2
  simp at hc3

/-- C1 (amended): the ploomes-crm, brasil-api, slack and brave-search
limiters implement fixed-window counting — each windowed granularity keeps
an integer counter and a window start time, fully resets (counter 0, start
set to `now`) exactly when the elapsed time strictly exceeds the window
length, and is otherwise left untouched; brave-search's per-month counter
has no window start of its own and is never reset.  The google-calendar
limiter instead keeps a sliding log of individual request timestamps per
operation category: each call decays expired timestamps individually and
appends `now` on admission, with no counter and no full reset. -/
theorem claim_c1_fixed_window_vs_sliding_log :
    (∀ (now : Nat) (rc : McpServers.RequestCount),
      (1000 < now - rc.lastSecondReset →
        (McpServers.resetWindows now rc).second = 0 ∧
        (McpServers.resetWindows now rc).lastSecondReset = now) ∧
      (¬ 1000 < now - rc.lastSecondReset →
        (McpServers.resetWindows now rc).second = rc.second ∧
        (McpServers.resetWindows now rc).lastSecondReset =
          rc.lastSecondReset)) ∧
    (∀ (now : Nat) (rc : McpServers.RequestCount),
      (60000 < now - rc.lastMinuteReset →
        (McpServers.resetWindows now rc).minute = 0 ∧
        (McpServers.resetWindows now rc).lastMinuteReset = now) ∧
      (¬ 60000 < now - rc.lastMinuteReset →
        (McpServers.resetWindows now rc).minute = rc.minute ∧
        (McpServers.resetWindows now rc).lastMinuteReset =
          rc.lastMinuteReset)) ∧
    (∀ (now : Nat) (rc : BraveSearch.RequestCount),
      (1000 < now - rc.lastReset →
        (BraveSearch.resetSecondWindow now rc).second = 0 ∧
        (BraveSearch.resetSecondWindow now rc).lastReset = now) ∧
      (¬ 1000 < now - rc.lastReset →
        BraveSearch.resetSecondWindow now rc = rc) ∧
      (BraveSearch.resetSecondWindow now rc).month = rc.month) ∧
    (∀ (op : String) (now : Nat) (st : GoogleCalendar.TimestampMap),
      (GoogleCalendar.checkRateLimit op now st).1 op =
        (st op).filter (fun t => now - t < GoogleCalendar.windowMs) ++
          (if (GoogleCalendar.checkRateLimit op now st).2 then [now]
           else [])) := by
  refine ⟨?_, ?_, ?_, ?_⟩
  · intro now rc
    constructor
    · intro h
      rw [McpServers.resetWindows_cases]
      simp [h]
    · intro h
      rw [McpServers.resetWindows_cases]
      simp [h]
  · intro now rc
    constructor
    · intro h
      rw [McpServers.resetWindows_cases]
      simp [h]
    · intro h
      rw [McpServers.resetWindows_cases]
      simp [h]
  · intro now rc
    refine ⟨fun h => ?_, fun h => ?_, ?_⟩
    · unfold BraveSearch.resetSecondWindow
      rw [if_pos h]
      exact ⟨rfl, rfl⟩
    · unfold BraveSearch.resetSecondWindow
      rw [if_neg h]
    · exact BraveSearch.resetSecondWindow_month_eq now rc
  · intro op now st
    unfold GoogleCalendar.checkRateLimit
    dsimp only
    split
    · dsimp only
      rw [Function.update_same]
      simp
    · dsimp only
      rw [Function.update_same]
      simp

/-- Witness for C1 (amended): concrete window resets, non-resets, and one
sliding-log step. -/
theorem claim_c1_fixed_window_vs_sliding_log_witness :
    ((McpServers.resetWindows 2000 ⟨3, 4, 0, 0⟩).second = 0 ∧
      (McpServers.resetWindows 2000 ⟨3, 4, 0, 0⟩).lastSecondReset = 2000) ∧
    ((McpServers.resetWindows 500 ⟨3, 4, 0, 0⟩).second = 3 ∧
      (McpServers.resetWindows 500 ⟨3, 4, 0, 0⟩).lastSecondReset = 0) ∧
    ((BraveSearch.resetSecondWindow 2000 ⟨1, 9, 0⟩).second = 0 ∧
      (BraveSearch.resetSecondWindow 2000 ⟨1, 9, 0⟩).lastReset = 2000) ∧
    (BraveSearch.resetSecondWindow 2000 ⟨1, 9, 0⟩).month = 9 :=
  ⟨(claim_c1_fixed_window_vs_sliding_log.1 2000 ⟨3, 4, 0, 0⟩).1 (by decide),
   (claim_c1_fixed_window_vs_sliding_log.1 500 ⟨3, 4, 0, 0⟩).2 (by decide),
   (claim_c1_fixed_window_vs_sliding_log.2.2.1 2000 ⟨1, 9, 0⟩).1 (by decide),
   (claim_c1_fixed_window_vs_sliding_log.2.2.1 2000 ⟨1, 9, 0⟩).2.2⟩
